import Mathlib

/-!
Verification development for the Spotify_Download repository
(`main.py`, `search_youtube_urls.py`).  The Python source is shallowly
embedded: pure string manipulation becomes functions on `List Char` /
`String`, the external search provider and the downloader network are
oracles passed in as arguments, and the filesystem is an explicit list of
existing paths threaded through the download functions.
-/

namespace Spotify

/-! ### Python string primitives -/

/-- Python whitespace characters stripped by `str.strip()` (ASCII subset). -/
def isPySpace (c : Char) : Bool :=
  c == ' ' || c == '\t' || c == '\n' || c == '\r' ||
  c == Char.ofNat 11 || c == Char.ofNat 12

/-- `str.strip()` on a character list: drop whitespace from both ends. -/
def pyStripL (l : List Char) : List Char :=
  (((l.dropWhile isPySpace).reverse).dropWhile isPySpace).reverse

/-- `str.strip()` on a `String`. -/
def pyStrip (s : String) : String := ⟨pyStripL s.data⟩

/-- Does `needle` start `hay`? -/
def startsWithL : List Char → List Char → Bool
  | [], _ => true
  | _ :: _, [] => false
  | a :: as, b :: bs => a == b && startsWithL as bs

/-- Python `needle in hay` substring containment on character lists. -/
def containsSeq (needle : List Char) : List Char → Bool
  | [] => needle.isEmpty
  | c :: rest => startsWithL needle (c :: rest) || containsSeq needle rest

/-- Python `needle in hay` on strings. -/
def pyIn (needle hay : String) : Bool := containsSeq needle.data hay.data

/-- `line.split(sep, 1)` when `sep` occurs: the parts before and after the
first occurrence; `none` models `sep not in line`. -/
def splitFirstL (sep : Char) : List Char → Option (List Char × List Char)
  | [] => none
  | c :: rest =>
    if c == sep then some ([], rest)
    else (splitFirstL sep rest).map (fun p => (c :: p.1, p.2))

/-- `line.split(sep)`: split on every occurrence of `sep`. -/
def pySplitAll (sep : Char) : List Char → List (List Char)
  | [] => [[]]
  | c :: rest =>
    let r := pySplitAll sep rest
    if c == sep then [] :: r
    else
      match r with
      | [] => [[c]]
      | h :: t => (c :: h) :: t

/-- `os.path.join` on character lists: an absolute second component wins,
an empty or slash-terminated first component is used as is, otherwise a
slash is inserted. -/
def pathJoinL (a b : List Char) : List Char :=
  if b.head? = some '/' then b
  else if a = [] then b
  else if a.getLast? = some '/' then a ++ b
  else a ++ '/' :: b

/-- `os.path.join` for the cases the program exercises. -/
def pathJoin (a b : String) : String := ⟨pathJoinL a.data b.data⟩

/-! ### Resolver (`find_url` in `main.py`, lines 125-174) -/

/-- The fields of a provider result object that `find_url` reads
(`webpage_url`, `url`, `title`). -/
structure Video where
  webpage_url : Option String
  url : Option String
  title : Option String
deriving DecidableEq

/-- The info object returned by a successful `extract_info` call: either a
result list (`'entries' in info`) or a single bare result. -/
inductive Info where
  | withEntries (entries : List Video)
  | single (v : Video)
deriving DecidableEq

/-- One provider interaction: a successful info object or a raised
exception carrying its message text. -/
inductive ProviderResponse where
  | ok (info : Info)
  | err (msg : String)
deriving DecidableEq

/-- The dictionary `find_url` returns. -/
structure FindResult where
  song : String
  url : Option String
  title : Option String
  error : Option String
  found : Bool
deriving DecidableEq

/-- The not-found dictionary `{'song': ..., 'error': ..., 'found': False}`. -/
def mkErr (song msg : String) : FindResult :=
  { song := song, url := none, title := none, error := some msg, found := false }

/-- The found dictionary `{'song': ..., 'url': ..., 'found': True, 'title': ...}`. -/
def mkFound (song url title : String) : FindResult :=
  { song := song, url := some url, title := some title, error := none, found := true }

/-- Python truthiness of `video.get(...)`: `None` and `""` are falsy. -/
def truthyOpt : Option String → Bool
  | none => false
  | some s => !(s == "")

/-- Python `a or b` on two `.get` results. -/
def pyOrOpt (a b : Option String) : Option String :=
  if truthyOpt a then a else b

/-- Outcome of the `try:` block body of one attempt: a `return` from inside
the block, or an exception with its message. -/
inductive AttemptOutcome where
  | ret (r : FindResult)
  | exc (msg : String)
deriving DecidableEq

/-- Body of the `try:` block of one `find_url` attempt: select the video
(`info['entries'][0]` raises an index error on an empty list), extract url
and title, and return found / "No results found". -/
def tryBody (song : String) (resp : ProviderResponse) : AttemptOutcome :=
  match resp with
  | .err m => .exc m
  | .ok (.withEntries []) => .exc "list index out of range"
  | .ok (.withEntries (v :: _)) =>
    let url := pyOrOpt v.webpage_url v.url
    let title := v.title.getD "Unknown Title"
    if truthyOpt url then .ret (mkFound song (url.getD "") title)
    else .ret (mkErr song "No results found")
  | .ok (.single v) =>
    let url := pyOrOpt v.webpage_url v.url
    let title := v.title.getD "Unknown Title"
    if truthyOpt url then .ret (mkFound song (url.getD "") title)
    else .ret (mkErr song "No results found")

/-- The `for attempt in range(3)` loop of `find_url`.  `fuel` is the number
of remaining iterations (the entry point passes 3), `attempt` the Python
loop variable, `cd` the number of 20-second rate-limit cooldowns slept so
far.  Returns the result dictionary together with the final cooldown
count. -/
def find_url_aux (song : String) (oracle : Nat → ProviderResponse) :
    Nat → Nat → Nat → FindResult × Nat
  | 0, _, cd => (mkErr song "Max retries exceeded", cd)
  | fuel + 1, attempt, cd =>
    match tryBody song (oracle attempt) with
    | .ret r => (r, cd)
    | .exc msg =>
      if pyIn "429" msg then
        if attempt == 2 then (mkErr song msg, cd + 1)
        else find_url_aux song oracle fuel (attempt + 1) (cd + 1)
      else if pyIn "Sign in" msg then
        (mkErr song "Age restricted/Login required", cd)
      else if attempt == 2 then (mkErr song msg, cd)
      else find_url_aux song oracle fuel (attempt + 1) cd

/-- `find_url(song_name)` with the provider's per-attempt behaviour given
by `oracle`. -/
def find_url (song : String) (oracle : Nat → ProviderResponse) : FindResult × Nat :=
  find_url_aux song oracle 3 0 0

/-- Does one failed attempt make the `for` loop proceed to the next
attempt (rather than `return`)?  True exactly when the `try` body raised
and the handler neither hit the `Sign in` return (a `429` message takes
the first branch and retries). -/
def stepRetries (song : String) (resp : ProviderResponse) : Bool :=
  match tryBody song resp with
  | .ret _ => false
  | .exc msg => pyIn "429" msg || !(pyIn "Sign in" msg)

/-- A provider response that succeeds but carries no usable URL: a single
result, or a non-empty entry list whose first entry, after
`video.get('webpage_url') or video.get('url')`, is falsy. -/
def NoUsableResult (resp : ProviderResponse) : Prop :=
  ∃ v, (resp = ProviderResponse.ok (Info.single v) ∨
        ∃ rest, resp = ProviderResponse.ok (Info.withEntries (v :: rest))) ∧
       truthyOpt (pyOrOpt v.webpage_url v.url) = false

/-! ### Resolution Coordinator (`search_youtube` in `main.py`, lines 176-220) -/

/-- `future_to_song = {executor.submit(find_url, song): song for song in songs}`:
every element of `songs` produces one `submit` call, and each call returns
a fresh future, modelled by the element's index. -/
def futureToSong (songs : List String) : List (Nat × String) := songs.enum

/-- The multiset of track names handed to the Resolver, one per submitted
future. -/
def submitted (songs : List String) : List String :=
  (futureToSong songs).map Prod.snd

/-- `f"{result['song']} | {result['url']}"`, the serialized found entry. -/
def serializeLine (name url : String) : String := name ++ " | " ++ url

/-- Serialization of a found result dictionary. -/
def serializeFound (r : FindResult) : String := serializeLine r.song (r.url.getD "")

/-- The `as_completed` collection loop: each result, in completion order,
is appended to `found_list` (serialized) when `found`, else its song name
to `not_found_list`. -/
def collectResults : List FindResult → List String × List String
  | [] => ([], [])
  | r :: rest =>
    let out := collectResults rest
    if r.found then (serializeFound r :: out.1, out.2)
    else (out.1, r.song :: out.2)

/-- The results of all submitted resolutions in completion order: `order`
lists the indices of the submitted futures in the order `as_completed`
yields them. -/
def resolveAllResults (songs : List String) (resolve : String → FindResult)
    (order : List Nat) : List FindResult :=
  order.map (fun i => resolve (songs.getD i ""))

/-! ### Acquirer (`download_track` in `main.py`, lines 225-271) -/

/-- `c.isalpha() or c.isdigit() or c in (' ', '-', '_', '.', '(', ')')`. -/
def keepChar (c : Char) : Bool :=
  c.isAlpha || c.isDigit ||
  (c == ' ' || c == '-' || c == '_' || c == '.' || c == '(' || c == ')')

/-- The CLI sanitizer: keep whitelisted characters, strip, truncate to 150. -/
def sanitize (s : String) : String :=
  ⟨(pyStripL (s.data.filter keepChar)).take 150⟩

/-- The sanitizer of the appended `download_songs.py` copy (lines 428-429):
same filter and strip, but no length truncation. -/
def sanitizeScript (s : String) : String :=
  ⟨pyStripL (s.data.filter keepChar)⟩

/-- Filesystem and network-usage state threaded through downloads:
the set of existing file paths, and the number of network downloads
issued. -/
structure DLState where
  files : List String
  netCalls : Nat
deriving DecidableEq

/-- Outcome of one `download_track` call: the returned boolean, and
whether the `[SKIP] Already exists` path was taken. -/
structure DLOutcome where
  success : Bool
  skipped : Bool
deriving DecidableEq

/-- The target `<folder>/<safe_name>.mp3` path a well-formed line maps to
(placeholder `""` for malformed lines, which never reach the path
computation). -/
def mp3Path (folder line : String) : String :=
  match splitFirstL '|' line.data with
  | none => ""
  | some (a, _) => pathJoin folder (sanitize (pyStrip ⟨a⟩)) ++ ".mp3"

/-- `download_track(line, output_folder)` (CLI version): reject lines
without `|`, parse on the first `|`, sanitize, skip when the `.mp3`
already exists, otherwise download via the network oracle `net` (which
says whether fetching a URL succeeds). -/
def download_track (line folder : String) (net : String → Bool)
    (st : DLState) : DLOutcome × DLState :=
  match splitFirstL '|' line.data with
  | none => (⟨false, false⟩, st)
  | some (p0, p1) =>
    let song_name := pyStrip ⟨p0⟩
    let url := pyStrip ⟨p1⟩
    let safe_name := sanitize song_name
    let output_path := pathJoin folder safe_name
    if (output_path ++ ".mp3") ∈ st.files then (⟨true, true⟩, st)
    else
      let ok := net url
      (⟨ok, false⟩,
       { files := if ok then (output_path ++ ".mp3") :: st.files else st.files,
         netCalls := st.netCalls + 1 })

/-! ### Acquisition Coordinator (`download_songs` in `main.py`, lines 273-316) -/

/-- The sequential download loop: one outcome per line in input order,
plus the running success count and the final state. -/
def download_songs (lines : List String) (folder : String) (net : String → Bool)
    (st : DLState) : List DLOutcome × Nat × DLState :=
  match lines with
  | [] => ([], 0, st)
  | l :: rest =>
    let step := download_track l folder net st
    let out := download_songs rest folder net step.2
    (step.1 :: out.1, (if step.1.success then 1 else 0) + out.2.1, out.2.2)

/-! ### The two `download_track` parsers (claim C9) -/

/-- Entry parsing of the CLI `download_track`: `line.split("|", 1)`, both
parts stripped. -/
def parseCLI (line : String) : Option (String × String) :=
  match splitFirstL '|' line.data with
  | none => none
  | some (a, b) => some (pyStrip ⟨a⟩, pyStrip ⟨b⟩)

/-- Entry parsing of the appended script's `download_track`:
`line.split("|")`, then `parts[0].strip()` and `parts[1].strip()`. -/
def parseScript (line : String) : Option (String × String) :=
  match splitFirstL '|' line.data with
  | none => none
  | some _ =>
    let parts := pySplitAll '|' line.data
    some (pyStrip ⟨parts.getD 0 []⟩, pyStrip ⟨parts.getD 1 []⟩)

/-- Entry-to-url function of the CLI version. -/
def entryUrlCLI (line : String) : Option String := (parseCLI line).map (fun p => p.2)

/-- Entry-to-url function of the appended script version. -/
def entryUrlScript (line : String) : Option String := (parseScript line).map (fun p => p.2)

/-- Entry-to-filename function of the CLI version (150-char truncation). -/
def entryNameCLI (line : String) : Option String :=
  (parseCLI line).map (fun p => sanitize p.1)

/-- Entry-to-filename function of the appended script version (no
truncation). -/
def entryNameScript (line : String) : Option String :=
  (parseScript line).map (fun p => sanitizeScript p.1)

/-! ### Concrete inputs used by counterexamples and witnesses -/

/-- Provider oracle for C3: attempt 0 returns success with an empty entry
list, attempt 1 a usable single result. -/
def c3oracle : Nat → ProviderResponse := fun i =>
  if i == 0 then ProviderResponse.ok (Info.withEntries [])
  else ProviderResponse.ok (Info.single ⟨some "https://x/a", none, some "T"⟩)

/-- Provider oracle for the C3 witness: every attempt succeeds with a
single result carrying no URL at all. -/
def c3orc2 : Nat → ProviderResponse := fun _ =>
  ProviderResponse.ok (Info.single ⟨none, none, none⟩)

/-- Provider oracle for the C6 witness, first scenario: rate-limited on
attempt 0, usable result on attempt 1. -/
def c6oracleA : Nat → ProviderResponse := fun i =>
  if i == 0 then ProviderResponse.err "HTTP Error 429: Too Many Requests"
  else ProviderResponse.ok (Info.single ⟨some "https://x/a", none, some "T"⟩)

/-- Provider oracle for the C6 witness, second scenario: rate-limited on
every attempt. -/
def c6oracleB : Nat → ProviderResponse := fun _ =>
  ProviderResponse.err "HTTP Error 429: Too Many Requests"

/-- Provider oracle for the C7 witness: login-restricted on attempt 0. -/
def c7oracle : Nat → ProviderResponse := fun _ =>
  ProviderResponse.err "Sign in to confirm your age"

/-- Resolver used in the C1 witness: "a" resolves, anything else fails. -/
def c1resolve : String → Nat → ProviderResponse := fun s _ =>
  if s == "a" then ProviderResponse.ok (Info.single ⟨some "https://x/a", none, some "T"⟩)
  else ProviderResponse.err "boom"

/-- A 151-character name whose sanitized form ends in 149 spaces: the
150-character truncation cuts the final letter. -/
def c5input : String := ⟨'a' :: (List.replicate 149 ' ' ++ ['b'])⟩

/-- A manifest line whose name part sanitizes to 151 characters, so only
the CLI version truncates it. -/
def c9long : String := ⟨List.replicate 151 'a' ++ (' ' :: '|' :: ' ' :: ['u'])⟩

/-! ## Theorems -/

/-! ### Helper lemmas on `dropWhile` and `pyStripL` -/

theorem dropWhile_fix (p : α → Bool) (l : List α) :
    (l.dropWhile p).dropWhile p = l.dropWhile p := by
  induction l with
  | nil => rfl
  | cons c rest ih =>
    by_cases h : p c
    · simpa [List.dropWhile_cons, h] using ih
    · simp [List.dropWhile_cons, h]

theorem head_false_of_dropWhile_cons_eq (p : α → Bool) (c : α) (l : List α)
    (h : (c :: l).dropWhile p = c :: l) : p c = false := by
  by_contra hc
  rw [Bool.not_eq_false] at hc
  rw [List.dropWhile_cons, if_pos hc] at h
  have := (List.dropWhile_sublist (l := l) p).length_le
  rw [h] at this
  simp at this

theorem stripL_dropWhile (l : List Char) :
    (pyStripL l).dropWhile isPySpace = pyStripL l := by
  unfold pyStripL
  have hA : (l.dropWhile isPySpace).dropWhile isPySpace = l.dropWhile isPySpace :=
    dropWhile_fix _ _
  have hBA : ((l.dropWhile isPySpace).reverse.dropWhile isPySpace).reverse
      ++ ((l.dropWhile isPySpace).reverse.takeWhile isPySpace).reverse
      = l.dropWhile isPySpace := by
    have hsplit : (l.dropWhile isPySpace).reverse.takeWhile isPySpace
        ++ (l.dropWhile isPySpace).reverse.dropWhile isPySpace
        = (l.dropWhile isPySpace).reverse := List.takeWhile_append_dropWhile _ _
    calc ((l.dropWhile isPySpace).reverse.dropWhile isPySpace).reverse
          ++ ((l.dropWhile isPySpace).reverse.takeWhile isPySpace).reverse
        = ((l.dropWhile isPySpace).reverse.takeWhile isPySpace
            ++ (l.dropWhile isPySpace).reverse.dropWhile isPySpace).reverse := by
          rw [List.reverse_append]
      _ = ((l.dropWhile isPySpace).reverse).reverse := by rw [hsplit]
      _ = l.dropWhile isPySpace := List.reverse_reverse _
  cases hB : ((l.dropWhile isPySpace).reverse.dropWhile isPySpace).reverse with
  | nil => simp
  | cons c t =>
    rw [hB] at hBA
    have hc : isPySpace c = false := by
      apply head_false_of_dropWhile_cons_eq isPySpace c
        (t ++ ((l.dropWhile isPySpace).reverse.takeWhile isPySpace).reverse)
      rw [← List.cons_append, hBA]
      exact hA
    rw [List.dropWhile_cons, if_neg (by simp [hc])]

theorem pyStripL_idem (l : List Char) : pyStripL (pyStripL l) = pyStripL l := by
  have h1 : (pyStripL l).dropWhile isPySpace = pyStripL l := stripL_dropWhile l
  show (((pyStripL l).dropWhile isPySpace).reverse.dropWhile isPySpace).reverse = pyStripL l
  rw [h1]
  show (((((l.dropWhile isPySpace).reverse.dropWhile isPySpace).reverse).reverse).dropWhile
      isPySpace).reverse = pyStripL l
  rw [List.reverse_reverse, dropWhile_fix]
  rfl

theorem pyStripL_sublist (l : List Char) : (pyStripL l).Sublist l := by
  unfold pyStripL
  have h1 : ((l.dropWhile isPySpace).reverse.dropWhile isPySpace).Sublist
      (l.dropWhile isPySpace).reverse := List.dropWhile_sublist _
  have h2 : (((l.dropWhile isPySpace).reverse.dropWhile isPySpace).reverse).Sublist
      (l.dropWhile isPySpace) := by
    rw [← List.reverse_sublist]
    simpa using h1
  exact h2.trans (List.dropWhile_sublist _)

theorem pyStripL_cons_space (c : Char) (l : List Char) (h : isPySpace c = true) :
    pyStripL (c :: l) = pyStripL l := by
  unfold pyStripL
  rw [List.dropWhile_cons, if_pos h]

theorem pyStripL_append_space (l : List Char) (c : Char) (h : isPySpace c = true) :
    pyStripL (l ++ [c]) = pyStripL l := by
  unfold pyStripL
  rw [List.dropWhile_append]
  by_cases he : (l.dropWhile isPySpace).isEmpty
  · rw [if_pos he]
    rw [List.isEmpty_iff] at he
    rw [he]
    simp [List.dropWhile_cons, h, List.dropWhile_nil]
  · rw [if_neg he]
    have : (l.dropWhile isPySpace ++ [c]).reverse = c :: (l.dropWhile isPySpace).reverse := by
      simp
    rw [this, List.dropWhile_cons, if_pos h]

/-! ### C4: submission multiplicity in `search_youtube` -/

/-- C4 counterexample: with input `["a", "a"]`, the coordinator submits
the name "a" to the Resolver twice (one `executor.submit` per input line),
not once as the claim states. -/
theorem C4_counterexample :
    (submitted ["a", "a"]).count "a" = 2 ∧ ¬ (submitted ["a", "a"]).count "a" = 1 := by
  constructor
  · rfl
  · decide

/-- C4 (amended): `search_youtube` submits each input *occurrence* to the
Resolver exactly once — a name appearing k times in the input is submitted
k times, duplicates processed independently. -/
theorem C4_amended (songs : List String) (name : String) :
    (submitted songs).count name = songs.count name := by
  unfold submitted futureToSong
  rw [List.enum_map_snd]

/-! ### C5: sanitizer idempotence in `download_track` -/

/-- C5 counterexample: the 150-character truncation can expose trailing
spaces, so sanitizing an already-sanitized name can shrink it further.
For the 151-character name `"a" ++ " "*149 ++ "b"`, one application yields
`"a" ++ " "*149` and a second application yields `"a"`. -/
theorem C5_counterexample : ¬ sanitize (sanitize c5input) = sanitize c5input := by
  decide

/-- C5 (amended): sanitization is idempotent for every name whose filtered
and stripped form is at most 150 characters (so truncation is a no-op);
only longer names, where truncation can expose trailing whitespace, can
shrink under a second application. -/
theorem C5_amended (s : String)
    (h : (pyStripL (s.data.filter keepChar)).length ≤ 150) :
    sanitize (sanitize s) = sanitize s := by
  unfold sanitize
  rw [List.take_of_length_le h]
  show (⟨(pyStripL ((pyStripL (s.data.filter keepChar)).filter keepChar)).take 150⟩ : String)
      = ⟨pyStripL (s.data.filter keepChar)⟩
  have hfil : (pyStripL (s.data.filter keepChar)).filter keepChar
      = pyStripL (s.data.filter keepChar) := by
    rw [List.filter_eq_self]
    intro a ha
    exact List.of_mem_filter ((pyStripL_sublist _).subset ha)
  rw [hfil, pyStripL_idem, List.take_of_length_le h]

/-- C5 witness: a concrete short name on which the amended idempotence
theorem applies. -/
theorem C5_witness :
    (pyStripL (("My Song (feat. X)!").data.filter keepChar)).length ≤ 150 ∧
    sanitize (sanitize "My Song (feat. X)!") = sanitize "My Song (feat. X)!" :=
  ⟨by decide, C5_amended "My Song (feat. X)!" (by decide)⟩

/-! ### Helper lemmas on splitting -/

theorem splitFirst_no_sep_fst (sep : Char) (l : List Char) :
    ∀ a b, splitFirstL sep l = some (a, b) → sep ∉ a := by
  induction l with
  | nil => intro a b h; simp [splitFirstL] at h
  | cons c rest ih =>
    intro a b h
    rw [splitFirstL] at h
    by_cases hc : (c == sep) = true
    · rw [if_pos hc] at h
      simp only [Option.some.injEq, Prod.mk.injEq] at h
      rw [← h.1]
      simp
    · rw [if_neg hc] at h
      cases hsr : splitFirstL sep rest with
      | none => rw [hsr] at h; simp at h
      | some p =>
        rw [hsr] at h
        simp only [Option.map_some', Option.some.injEq, Prod.mk.injEq] at h
        rw [← h.1]
        intro hmem
        rcases List.mem_cons.mp hmem with h1 | h1
        · exact hc (by simp [h1])
        · exact ih p.1 p.2 (by rw [hsr]) h1

theorem pySplitAll_no_sep (sep : Char) (l : List Char) (h : sep ∉ l) :
    pySplitAll sep l = [l] := by
  induction l with
  | nil => rfl
  | cons c rest ih =>
    have hc : (c == sep) = false := by
      simp only [List.mem_cons, not_or] at h
      simp [Ne.symm h.1]
    have hrest : sep ∉ rest := by
      simp only [List.mem_cons, not_or] at h
      exact h.2
    rw [pySplitAll]
    simp only [hc, ih hrest]
    rfl

theorem pySplitAll_of_splitFirst (sep : Char) (l : List Char) :
    ∀ a b, splitFirstL sep l = some (a, b) → sep ∉ b →
      pySplitAll sep l = [a, b] := by
  induction l with
  | nil => intro a b h _; simp [splitFirstL] at h
  | cons c rest ih =>
    intro a b h hb
    rw [splitFirstL] at h
    by_cases hc : (c == sep) = true
    · rw [if_pos hc] at h
      simp only [Option.some.injEq, Prod.mk.injEq] at h
      rw [pySplitAll]
      simp only [hc]
      rw [← h.2] at hb
      rw [pySplitAll_no_sep sep rest hb, ← h.1, ← h.2]
      rfl
    · rw [if_neg hc] at h
      cases hsr : splitFirstL sep rest with
      | none => rw [hsr] at h; simp at h
      | some p =>
        rw [hsr] at h
        simp only [Option.map_some', Option.some.injEq, Prod.mk.injEq] at h
        have hrec : pySplitAll sep rest = [p.1, p.2] :=
          ih p.1 p.2 (by rw [hsr]) (by rw [h.2]; exact hb)
        rw [pySplitAll]
        simp only [hc, hrec]
        rw [← h.1, ← h.2]
        rfl

theorem splitFirst_append_sep (sep : Char) (xs ys : List Char) (hxs : sep ∉ xs) :
    splitFirstL sep (xs ++ sep :: ys) = some (xs, ys) := by
  induction xs with
  | nil => simp [splitFirstL]
  | cons c rest ih =>
    have hc : (c == sep) = false := by
      simp only [List.mem_cons, not_or] at hxs
      simp [Ne.symm hxs.1]
    have hrest : sep ∉ rest := by
      simp only [List.mem_cons, not_or] at hxs
      exact hxs.2
    rw [List.cons_append, splitFirstL]
    simp only [hc]
    rw [ih hrest]
    rfl

/-! ### C9: the two `download_track` implementations -/

set_option maxRecDepth 8192 in
/-- C9 counterexample: the CLI version and the appended script version do
not compute the same parse or file name.  On `"a | b | c"` the CLI url is
`"b | c"` while the script url is `"b"`; on a 151-character name only the
CLI truncates. -/
theorem C9_counterexample :
    ¬ entryUrlCLI "a | b | c" = entryUrlScript "a | b | c" ∧
    ¬ entryNameCLI c9long = entryNameScript c9long := by
  constructor
  · decide
  · decide

/-- C9 (amended): the two versions agree on every manifest line containing
exactly one `|` whose name part filters and strips to at most 150
characters; in general they differ, because the CLI splits on the first
`|` only and truncates the sanitized name to 150 characters while the
script takes the segment between the first and second `|` and applies no
truncation. -/
theorem C9_amended (line : String) (a b : List Char)
    (hsplit : splitFirstL '|' line.data = some (a, b))
    (hb : '|' ∉ b)
    (hlen : (pyStripL ((pyStrip ⟨a⟩).data.filter keepChar)).length ≤ 150) :
    entryNameCLI line = entryNameScript line ∧
    entryUrlCLI line = entryUrlScript line := by
  have hall : pySplitAll '|' line.data = [a, b] :=
    pySplitAll_of_splitFirst '|' line.data a b hsplit hb
  have hps : parseScript line = some (pyStrip ⟨a⟩, pyStrip ⟨b⟩) := by
    unfold parseScript
    rw [hsplit, hall]
    rfl
  have hpc : parseCLI line = some (pyStrip ⟨a⟩, pyStrip ⟨b⟩) := by
    unfold parseCLI
    rw [hsplit]
  have hname : sanitize (pyStrip ⟨a⟩) = sanitizeScript (pyStrip ⟨a⟩) := by
    unfold sanitize sanitizeScript
    rw [List.take_of_length_le hlen]
  constructor
  · unfold entryNameCLI entryNameScript
    rw [hps, hpc]
    simp [hname]
  · unfold entryUrlCLI entryUrlScript
    rw [hps, hpc]

/-- C9 witness: on a well-formed single-separator line the amended
equivalence applies. -/
theorem C9_witness :
    splitFirstL '|' ("Song A | https://x/a").data
      = some (("Song A ").data, (" https://x/a").data) ∧
    '|' ∉ (" https://x/a").data ∧
    (pyStripL ((pyStrip ⟨("Song A ").data⟩).data.filter keepChar)).length ≤ 150 ∧
    (entryNameCLI "Song A | https://x/a" = entryNameScript "Song A | https://x/a" ∧
     entryUrlCLI "Song A | https://x/a" = entryUrlScript "Song A | https://x/a") :=
  ⟨by decide, by decide, by decide,
   C9_amended "Song A | https://x/a" ("Song A ").data (" https://x/a").data
     (by decide) (by decide) (by decide)⟩

/-! ### C10: manifest round-trip -/

/-- C10: serializing a resolved entry as `"<name> | <url>"` and parsing it
back with the CLI `download_track` parser (split on the first `|`, strip
both parts) recovers the original pair, whenever the name contains no `|`
and neither part has leading or trailing whitespace. -/
theorem C10_roundtrip (name url : String)
    (h1 : '|' ∉ name.data) (h2 : pyStrip name = name) (h3 : pyStrip url = url) :
    parseCLI (serializeLine name url) = some (name, url) := by
  have hdata : (serializeLine name url).data
      = (name.data ++ [' ']) ++ '|' :: (' ' :: url.data) := by
    unfold serializeLine
    rw [String.data_append, String.data_append]
    simp
  have hmem : '|' ∉ name.data ++ [' '] := by
    intro hm
    rcases List.mem_append.mp hm with hm | hm
    · exact h1 hm
    · simp at hm
  unfold parseCLI
  rw [hdata, splitFirst_append_sep '|' (name.data ++ [' ']) (' ' :: url.data) hmem]
  show some (pyStrip ⟨name.data ++ [' ']⟩, pyStrip ⟨' ' :: url.data⟩) = some (name, url)
  have hn : pyStrip ⟨name.data ++ [' ']⟩ = name := by
    unfold pyStrip
    show (⟨pyStripL (name.data ++ [' '])⟩ : String) = name
    rw [pyStripL_append_space name.data ' ' (by decide)]
    exact h2
  have hu : pyStrip ⟨' ' :: url.data⟩ = url := by
    unfold pyStrip
    show (⟨pyStripL (' ' :: url.data)⟩ : String) = url
    rw [pyStripL_cons_space ' ' url.data (by decide)]
    exact h3
  rw [hn, hu]

/-- C10 witness: round trip on a concrete resolved entry. -/
theorem C10_witness :
    '|' ∉ ("Song A - Artist X").data ∧
    pyStrip "Song A - Artist X" = "Song A - Artist X" ∧
    pyStrip "https://x/a" = "https://x/a" ∧
    parseCLI (serializeLine "Song A - Artist X" "https://x/a")
      = some ("Song A - Artist X", "https://x/a") :=
  ⟨by decide, by decide, by decide,
   C10_roundtrip "Song A - Artist X" "https://x/a" (by decide) (by decide) (by decide)⟩

/-! ### Helper lemmas on `download_track` / `download_songs` -/

theorem download_track_skip (line folder : String) (net : String → Bool) (st : DLState)
    (hsome : (splitFirstL '|' line.data).isSome = true)
    (hmem : mp3Path folder line ∈ st.files) :
    download_track line folder net st = (⟨true, true⟩, st) := by
  cases h : splitFirstL '|' line.data with
  | none => rw [h] at hsome; simp at hsome
  | some p =>
    obtain ⟨p0, p1⟩ := p
    unfold mp3Path at hmem
    rw [h] at hmem
    simp only [download_track, h]
    rw [if_pos hmem]

theorem download_track_malformed (line folder : String) (net : String → Bool) (st : DLState)
    (h : splitFirstL '|' line.data = none) :
    download_track line folder net st = (⟨false, false⟩, st) := by
  simp only [download_track, h]

theorem download_songs_length (folder : String) (net : String → Bool) :
    ∀ (lines : List String) (st : DLState),
      (download_songs lines folder net st).1.length = lines.length := by
  intro lines
  induction lines with
  | nil => intro st; rfl
  | cons l rest ih =>
    intro st
    simp only [download_songs, List.length_cons]
    rw [ih]

theorem download_songs_count (folder : String) (net : String → Bool) :
    ∀ (lines : List String) (st : DLState),
      (download_songs lines folder net st).2.1
        = ((download_songs lines folder net st).1.filter (fun o => o.success)).length := by
  intro lines
  induction lines with
  | nil => intro st; rfl
  | cons l rest ih =>
    intro st
    simp only [download_songs, List.filter_cons]
    by_cases hs : (download_track l folder net st).1.success
    · simp [hs, ih, Nat.add_comm]
    · simp [hs, ih]

theorem download_songs_getD (folder : String) (net : String → Bool) :
    ∀ (lines : List String) (st : DLState) (i : Nat), i < lines.length →
      splitFirstL '|' ((lines.getD i "").data) = none →
      (download_songs lines folder net st).1.getD i ⟨true, true⟩ = ⟨false, false⟩ := by
  intro lines
  induction lines with
  | nil => intro st i hi; simp at hi
  | cons l rest ih =>
    intro st i hi hmal
    cases i with
    | zero =>
      have h0 : download_track l folder net st = (⟨false, false⟩, st) :=
        download_track_malformed l folder net st (by simpa using hmal)
      simp [download_songs, h0]
    | succ j =>
      simp only [download_songs, List.getD_cons_succ]
      exact ih _ j (by simpa using hi) (by simpa using hmal)

theorem download_songs_all_skip (folder : String) (net : String → Bool) (st : DLState) :
    ∀ lines : List String,
      (∀ l ∈ lines, (splitFirstL '|' l.data).isSome = true ∧ mp3Path folder l ∈ st.files) →
      download_songs lines folder net st
        = (List.replicate lines.length ⟨true, true⟩, lines.length, st) := by
  intro lines
  induction lines with
  | nil => intro _; rfl
  | cons l rest ih =>
    intro hall
    have h1 := download_track_skip l folder net st (hall l (by simp)).1 (hall l (by simp)).2
    have h2 := ih (fun l2 hl2 => hall l2 (by simp [hl2]))
    simp only [download_songs, h1, h2]
    simp [List.replicate_succ, Nat.add_comm]

/-! ### C2: idempotence / resumability of acquisition -/

/-- C2: if the sanitized target `.mp3` already exists, `download_track`
returns success with the skip path taken, touching neither the filesystem
nor the network; consequently `download_songs` over a manifest whose
tracks are all already present reports every entry as skipped/successful,
counts them all as successes, and leaves the state (files and network
call count) unchanged. -/
theorem C2_skip_idempotent (line folder : String) (net : String → Bool) (st : DLState)
    (lines : List String)
    (hline : (splitFirstL '|' line.data).isSome = true ∧ mp3Path folder line ∈ st.files)
    (hall : ∀ l ∈ lines, (splitFirstL '|' l.data).isSome = true ∧ mp3Path folder l ∈ st.files) :
    download_track line folder net st = (⟨true, true⟩, st) ∧
    (download_songs lines folder net st).1 = List.replicate lines.length ⟨true, true⟩ ∧
    (download_songs lines folder net st).2.1 = lines.length ∧
    (download_songs lines folder net st).2.2 = st := by
  have h2 := download_songs_all_skip folder net st lines hall
  exact ⟨download_track_skip line folder net st hline.1 hline.2,
    by rw [h2], by rw [h2], by rw [h2]⟩

/-- C2 witness: a two-line manifest whose tracks are both already in the
destination directory. -/
theorem C2_witness :
    ((splitFirstL '|' ("Song A | https://x/a").data).isSome = true ∧
      mp3Path "songs" "Song A | https://x/a" ∈
        (DLState.mk ["songs/Song A.mp3", "songs/Song B.mp3"] 0).files) ∧
    (∀ l ∈ ["Song A | https://x/a", "Song B | https://x/b"],
      (splitFirstL '|' l.data).isSome = true ∧
      mp3Path "songs" l ∈ (DLState.mk ["songs/Song A.mp3", "songs/Song B.mp3"] 0).files) ∧
    (download_track "Song A | https://x/a" "songs" (fun _ => false)
        (DLState.mk ["songs/Song A.mp3", "songs/Song B.mp3"] 0)
      = (⟨true, true⟩, DLState.mk ["songs/Song A.mp3", "songs/Song B.mp3"] 0) ∧
     (download_songs ["Song A | https://x/a", "Song B | https://x/b"] "songs" (fun _ => false)
        (DLState.mk ["songs/Song A.mp3", "songs/Song B.mp3"] 0)).1
       = List.replicate (["Song A | https://x/a", "Song B | https://x/b"] : List String).length
           ⟨true, true⟩ ∧
     (download_songs ["Song A | https://x/a", "Song B | https://x/b"] "songs" (fun _ => false)
        (DLState.mk ["songs/Song A.mp3", "songs/Song B.mp3"] 0)).2.1
       = (["Song A | https://x/a", "Song B | https://x/b"] : List String).length ∧
     (download_songs ["Song A | https://x/a", "Song B | https://x/b"] "songs" (fun _ => false)
        (DLState.mk ["songs/Song A.mp3", "songs/Song B.mp3"] 0)).2.2
       = DLState.mk ["songs/Song A.mp3", "songs/Song B.mp3"] 0) :=
  ⟨⟨by decide, by decide⟩, by decide,
   C2_skip_idempotent "Song A | https://x/a" "songs" (fun _ => false)
     (DLState.mk ["songs/Song A.mp3", "songs/Song B.mp3"] 0)
     ["Song A | https://x/a", "Song B | https://x/b"]
     ⟨by decide, by decide⟩ (by decide)⟩

/-! ### C8: malformed manifest lines do not abort the batch -/

/-- C8: a manifest line with no `|` separator makes `download_track`
return a failure outcome (it is a total function, so no exception is
raised), and `download_songs` still produces one outcome per input line in
order, records the failure at the malformed line's position, and counts
exactly the successful lines. -/
theorem C8_malformed_no_abort (lines : List String) (folder : String)
    (net : String → Bool) (st : DLState) (i : Nat) (hi : i < lines.length)
    (hmal : splitFirstL '|' ((lines.getD i "").data) = none) :
    download_track (lines.getD i "") folder net st = (⟨false, false⟩, st) ∧
    (download_songs lines folder net st).1.length = lines.length ∧
    (download_songs lines folder net st).1.getD i ⟨true, true⟩ = ⟨false, false⟩ ∧
    (download_songs lines folder net st).2.1
      = ((download_songs lines folder net st).1.filter (fun o => o.success)).length :=
  ⟨download_track_malformed _ folder net st hmal,
   download_songs_length folder net lines st,
   download_songs_getD folder net lines st i hi hmal,
   download_songs_count folder net lines st⟩

/-- C8 witness: a batch with a malformed second line keeps going. -/
theorem C8_witness :
    1 < (["Song A | https://x/a", "malformed line", "Song B | https://x/b"] : List String).length ∧
    splitFirstL '|' ((["Song A | https://x/a", "malformed line",
        "Song B | https://x/b"] : List String).getD 1 "").data = none ∧
    (download_track ((["Song A | https://x/a", "malformed line",
          "Song B | https://x/b"] : List String).getD 1 "") "songs" (fun _ => true)
        (DLState.mk [] 0) = (⟨false, false⟩, DLState.mk [] 0) ∧
     (download_songs ["Song A | https://x/a", "malformed line", "Song B | https://x/b"]
        "songs" (fun _ => true) (DLState.mk [] 0)).1.length
       = (["Song A | https://x/a", "malformed line", "Song B | https://x/b"] : List String).length ∧
     (download_songs ["Song A | https://x/a", "malformed line", "Song B | https://x/b"]
        "songs" (fun _ => true) (DLState.mk [] 0)).1.getD 1 ⟨true, true⟩ = ⟨false, false⟩ ∧
     (download_songs ["Song A | https://x/a", "malformed line", "Song B | https://x/b"]
        "songs" (fun _ => true) (DLState.mk [] 0)).2.1
       = ((download_songs ["Song A | https://x/a", "malformed line", "Song B | https://x/b"]
            "songs" (fun _ => true) (DLState.mk [] 0)).1.filter (fun o => o.success)).length) :=
  ⟨by decide, by decide,
   C8_malformed_no_abort ["Song A | https://x/a", "malformed line", "Song B | https://x/b"]
     "songs" (fun _ => true) (DLState.mk [] 0) 1 (by decide) (by decide)⟩

/-! ### Helper lemmas on the `find_url` attempt loop -/

theorem find_url_aux_fst_cd (song : String) (oracle : Nat → ProviderResponse) :
    ∀ (fuel attempt cd cd' : Nat),
      (find_url_aux song oracle fuel attempt cd).1
        = (find_url_aux song oracle fuel attempt cd').1 := by
  intro fuel
  induction fuel with
  | zero => intro attempt cd cd'; rfl
  | succ f ih =>
    intro attempt cd cd'
    simp only [find_url_aux]
    cases tryBody song (oracle attempt) with
    | ret r => rfl
    | exc msg =>
      by_cases h4 : pyIn "429" msg = true
      · by_cases ha : (attempt == 2) = true
        · simp [h4, ha]
        · simp only [h4, ha]
          simp only [if_true, if_false, Bool.false_eq_true]
          exact ih (attempt + 1) (cd + 1) (cd' + 1)
      · by_cases hs : pyIn "Sign in" msg = true
        · simp [h4, hs]
        · by_cases ha : (attempt == 2) = true
          · simp [h4, hs, ha]
          · simp only [h4, ha, hs]
            simp only [if_true, if_false, Bool.false_eq_true]
            exact ih (attempt + 1) cd cd'

theorem find_url_aux_ret (song : String) (oracle : Nat → ProviderResponse)
    (fuel attempt cd : Nat) (r : FindResult)
    (h : tryBody song (oracle attempt) = AttemptOutcome.ret r) :
    find_url_aux song oracle (fuel + 1) attempt cd = (r, cd) := by
  rw [find_url_aux, h]

theorem find_url_aux_exc_cont (song : String) (oracle : Nat → ProviderResponse)
    (fuel attempt cd : Nat) (m : String)
    (h : tryBody song (oracle attempt) = AttemptOutcome.exc m)
    (h4 : pyIn "429" m = true) (ha : (attempt == 2) = false) :
    find_url_aux song oracle (fuel + 1) attempt cd
      = find_url_aux song oracle fuel (attempt + 1) (cd + 1) := by
  rw [find_url_aux, h]
  simp [h4, ha]

theorem find_url_aux_exc_final429 (song : String) (oracle : Nat → ProviderResponse)
    (fuel attempt cd : Nat) (m : String)
    (h : tryBody song (oracle attempt) = AttemptOutcome.exc m)
    (h4 : pyIn "429" m = true) (ha : (attempt == 2) = true) :
    find_url_aux song oracle (fuel + 1) attempt cd = (mkErr song m, cd + 1) := by
  rw [find_url_aux, h]
  simp [h4, ha]

theorem find_url_aux_sign_in (song : String) (oracle : Nat → ProviderResponse)
    (fuel attempt cd : Nat) (m : String)
    (h : tryBody song (oracle attempt) = AttemptOutcome.exc m)
    (h4 : pyIn "429" m = false) (hs : pyIn "Sign in" m = true) :
    find_url_aux song oracle (fuel + 1) attempt cd
      = (mkErr song "Age restricted/Login required", cd) := by
  rw [find_url_aux, h]
  simp [h4, hs]

theorem find_url_aux_exc_skip (song : String) (oracle : Nat → ProviderResponse)
    (fuel attempt cd : Nat) (m : String)
    (h : tryBody song (oracle attempt) = AttemptOutcome.exc m)
    (h4 : pyIn "429" m = false) (hs : pyIn "Sign in" m = false)
    (ha : (attempt == 2) = false) :
    find_url_aux song oracle (fuel + 1) attempt cd
      = find_url_aux song oracle fuel (attempt + 1) cd := by
  rw [find_url_aux, h]
  simp [h4, hs, ha]

theorem find_url_aux_step (song : String) (oracle : Nat → ProviderResponse)
    (fuel attempt cd : Nat) (hstep : stepRetries song (oracle attempt) = true)
    (ha : (attempt == 2) = false) :
    (find_url_aux song oracle (fuel + 1) attempt cd).1
      = (find_url_aux song oracle fuel (attempt + 1) 0).1 := by
  unfold stepRetries at hstep
  cases htb : tryBody song (oracle attempt) with
  | ret r => rw [htb] at hstep; simp at hstep
  | exc msg =>
    rw [htb] at hstep
    by_cases h4 : pyIn "429" msg = true
    · rw [find_url_aux_exc_cont song oracle fuel attempt cd msg htb h4 ha]
      exact find_url_aux_fst_cd song oracle fuel (attempt + 1) (cd + 1) 0
    · have hs : pyIn "Sign in" msg = false := by
        rcases Bool.or_eq_true_iff.mp hstep with h | h
        · exact absurd h h4
        · simpa using h
      rw [find_url_aux_exc_skip song oracle fuel attempt cd msg htb
        (by simpa using h4) hs ha]
      exact find_url_aux_fst_cd song oracle fuel (attempt + 1) cd 0

theorem find_url_reach (song : String) (oracle : Nat → ProviderResponse) (k : Nat)
    (hk : k < 3) (hpre : ∀ i, i < k → stepRetries song (oracle i) = true) :
    (find_url song oracle).1 = (find_url_aux song oracle (3 - k) k 0).1 := by
  match k with
  | 0 => rfl
  | 1 =>
    show (find_url_aux song oracle (2 + 1) 0 0).1 = (find_url_aux song oracle 2 1 0).1
    exact find_url_aux_step song oracle 2 0 0 (hpre 0 (by omega)) (by decide)
  | 2 =>
    show (find_url_aux song oracle (2 + 1) 0 0).1 = (find_url_aux song oracle 1 2 0).1
    rw [find_url_aux_step song oracle 2 0 0 (hpre 0 (by omega)) (by decide)]
    exact find_url_aux_step song oracle 1 1 0 (hpre 1 (by omega)) (by decide)
  | n + 3 => omega

theorem noUsable_tryBody (song : String) (resp : ProviderResponse)
    (h : NoUsableResult resp) :
    tryBody song resp = AttemptOutcome.ret (mkErr song "No results found") := by
  obtain ⟨v, hv, hurl⟩ := h
  rcases hv with hv | ⟨rest, hv⟩
  · subst hv
    simp only [tryBody]
    rw [if_neg (by simp [hurl])]
  · subst hv
    simp only [tryBody]
    rw [if_neg (by simp [hurl])]

/-! ### C3: behaviour on a provider success with no results -/

/-- C3 counterexample: when the provider returns success with a literally
empty result list on attempt 0, `find_url` does NOT fail immediately with
"No results found" — `info['entries'][0]` raises an index error which is
handled as a generic retryable failure, so the next attempt runs and here
succeeds. -/
theorem C3_counterexample :
    c3oracle 0 = ProviderResponse.ok (Info.withEntries []) ∧
    (find_url "s" c3oracle).1.found = true ∧
    ¬ (find_url "s" c3oracle).1.error = some "No results found" := by
  refine ⟨rfl, ?_, ?_⟩
  · decide
  · decide

/-- C3 (amended): when the provider returns success but the selected
result carries no usable URL (the code's actual "no results" condition),
`find_url` returns the "No results found" failure immediately on that
attempt, independently of what later attempts would return; a success
with a literally empty entry list instead raises an index error that is
retried like any generic error. -/
theorem C3_amended_no_usable (song : String) (oracle : Nat → ProviderResponse)
    (k : Nat) (hk : k < 3)
    (hpre : ∀ i, i < k → stepRetries song (oracle i) = true)
    (hres : NoUsableResult (oracle k)) :
    (find_url song oracle).1 = mkErr song "No results found" := by
  rw [find_url_reach song oracle k hk hpre]
  have h3 : 3 - k = (2 - k) + 1 := by omega
  rw [h3, find_url_aux_ret song oracle (2 - k) k 0 _
    (noUsable_tryBody song (oracle k) hres)]

/-- C3 witness: a provider success carrying no URL at attempt 0 yields the
immediate "No results found" failure. -/
theorem C3_witness :
    (0 : Nat) < 3 ∧ NoUsableResult (c3orc2 0) ∧
    (find_url "s" c3orc2).1 = mkErr "s" "No results found" :=
  ⟨by omega, ⟨⟨none, none, none⟩, Or.inl rfl, rfl⟩,
   C3_amended_no_usable "s" c3orc2 0 (by omega)
     (fun i hi => absurd hi (Nat.not_lt_zero i))
     ⟨⟨none, none, none⟩, Or.inl rfl, rfl⟩⟩

/-! ### C6: rate-limit cooldown and the attempt budget -/

/-- C6: a rate-limited attempt sleeps one fixed cooldown and is retried,
and it consumes one of the 3 attempts.  First conjunct: rate-limited on
attempt 0 and successful on attempt 1 gives the success result with
exactly one charged cooldown.  Second conjunct: rate-limited on all three
attempts exhausts the budget, returning the final rate-limit error with
three charged cooldowns. -/
theorem C6_rate_limit_budget (song : String) (oracle : Nat → ProviderResponse) :
    (∀ m r, tryBody song (oracle 0) = AttemptOutcome.exc m → pyIn "429" m = true →
        tryBody song (oracle 1) = AttemptOutcome.ret r →
        find_url song oracle = (r, 1)) ∧
    (∀ m0 m1 m2,
        tryBody song (oracle 0) = AttemptOutcome.exc m0 → pyIn "429" m0 = true →
        tryBody song (oracle 1) = AttemptOutcome.exc m1 → pyIn "429" m1 = true →
        tryBody song (oracle 2) = AttemptOutcome.exc m2 → pyIn "429" m2 = true →
        find_url song oracle = (mkErr song m2, 3)) := by
  constructor
  · intro m r h0 h4 h1
    show find_url_aux song oracle (2 + 1) 0 0 = (r, 1)
    rw [find_url_aux_exc_cont song oracle 2 0 0 m h0 h4 (by decide)]
    exact find_url_aux_ret song oracle 1 1 1 r h1
  · intro m0 m1 m2 h0 h40 h1 h41 h2 h42
    show find_url_aux song oracle (2 + 1) 0 0 = (mkErr song m2, 3)
    rw [find_url_aux_exc_cont song oracle 2 0 0 m0 h0 h40 (by decide)]
    show find_url_aux song oracle (1 + 1) 1 1 = (mkErr song m2, 3)
    rw [find_url_aux_exc_cont song oracle 1 1 1 m1 h1 h41 (by decide)]
    exact find_url_aux_exc_final429 song oracle 0 2 2 m2 h2 h42 (by decide)

/-- C6 witness: both scenarios at concrete oracles — rate-limited then
successful (one cooldown), and rate-limited three times (budget
exhausted after three cooldowns). -/
theorem C6_witness :
    (tryBody "s" (c6oracleA 0)
       = AttemptOutcome.exc "HTTP Error 429: Too Many Requests" ∧
     pyIn "429" "HTTP Error 429: Too Many Requests" = true ∧
     find_url "s" c6oracleA = (mkFound "s" "https://x/a" "T", 1)) ∧
    (tryBody "s" (c6oracleB 0)
       = AttemptOutcome.exc "HTTP Error 429: Too Many Requests" ∧
     find_url "s" c6oracleB
       = (mkErr "s" "HTTP Error 429: Too Many Requests", 3)) :=
  ⟨⟨rfl, by decide,
    (C6_rate_limit_budget "s" c6oracleA).1 "HTTP Error 429: Too Many Requests"
      (mkFound "s" "https://x/a" "T") rfl (by decide) rfl⟩,
   ⟨rfl,
    (C6_rate_limit_budget "s" c6oracleB).2 "HTTP Error 429: Too Many Requests"
      "HTTP Error 429: Too Many Requests" "HTTP Error 429: Too Many Requests"
      rfl (by decide) rfl (by decide) rfl (by decide)⟩⟩

/-! ### C7: access-restriction errors fail immediately -/

/-- C7: when an attempt raises an error whose text contains "Sign in" (and
is not a rate limit), `find_url` returns the permanent
"Age restricted/Login required" failure immediately, on whatever attempt
the error occurs, with no dependence on later attempts. -/
theorem C7_sign_in_immediate (song : String) (oracle : Nat → ProviderResponse)
    (k : Nat) (m : String) (hk : k < 3)
    (hpre : ∀ i, i < k → stepRetries song (oracle i) = true)
    (hm : tryBody song (oracle k) = AttemptOutcome.exc m)
    (h4 : pyIn "429" m = false) (hs : pyIn "Sign in" m = true) :
    (find_url song oracle).1 = mkErr song "Age restricted/Login required" := by
  rw [find_url_reach song oracle k hk hpre]
  have h3 : 3 - k = (2 - k) + 1 := by omega
  rw [h3, find_url_aux_sign_in song oracle (2 - k) k 0 m hm h4 hs]

/-- C7 witness: a login-restriction error on attempt 0. -/
theorem C7_witness :
    (0 : Nat) < 3 ∧
    tryBody "s" (c7oracle 0) = AttemptOutcome.exc "Sign in to confirm your age" ∧
    pyIn "429" "Sign in to confirm your age" = false ∧
    pyIn "Sign in" "Sign in to confirm your age" = true ∧
    (find_url "s" c7oracle).1 = mkErr "s" "Age restricted/Login required" :=
  ⟨by omega, rfl, by decide, by decide,
   C7_sign_in_immediate "s" c7oracle 0 "Sign in to confirm your age" (by omega)
     (fun i hi => absurd hi (Nat.not_lt_zero i)) rfl (by decide) (by decide)⟩

/-! ### Helper lemmas for the Resolution Coordinator (C1) -/

theorem tryBody_song (song : String) (resp : ProviderResponse) (r : FindResult)
    (h : tryBody song resp = AttemptOutcome.ret r) : r.song = song := by
  cases resp with
  | err m => simp [tryBody] at h
  | ok info =>
    cases info with
    | single v =>
      simp only [tryBody] at h
      split at h <;> (injection h with h; rw [← h]; rfl)
    | withEntries vs =>
      cases vs with
      | nil => simp [tryBody] at h
      | cons v rest =>
        simp only [tryBody] at h
        split at h <;> (injection h with h; rw [← h]; rfl)

theorem find_url_aux_song (song : String) (oracle : Nat → ProviderResponse) :
    ∀ fuel attempt cd, (find_url_aux song oracle fuel attempt cd).1.song = song := by
  intro fuel
  induction fuel with
  | zero => intro attempt cd; rfl
  | succ f ih =>
    intro attempt cd
    rw [find_url_aux]
    cases htb : tryBody song (oracle attempt) with
    | ret r => exact tryBody_song song (oracle attempt) r htb
    | exc msg =>
      by_cases h4 : pyIn "429" msg = true
      · by_cases ha : (attempt == 2) = true
        · simp [h4, ha, mkErr]
        · simp only [h4, ha, if_true, if_false, Bool.false_eq_true]
          exact ih (attempt + 1) (cd + 1)
      · by_cases hs : pyIn "Sign in" msg = true
        · simp [h4, hs, mkErr]
        · by_cases ha : (attempt == 2) = true
          · simp [h4, hs, ha, mkErr]
          · simp only [h4, hs, ha, if_true, if_false, Bool.false_eq_true]
            exact ih (attempt + 1) cd

theorem find_url_song (song : String) (oracle : Nat → ProviderResponse) :
    (find_url song oracle).1.song = song :=
  find_url_aux_song song oracle 3 0 0

theorem collectResults_fst (rs : List FindResult) :
    (collectResults rs).1 = (rs.filter (fun r => r.found)).map serializeFound := by
  induction rs with
  | nil => rfl
  | cons r rest ih =>
    simp only [collectResults, List.filter_cons]
    by_cases h : r.found
    · simp [h, ih]
    · simp [h, ih]

theorem collectResults_snd (rs : List FindResult) :
    (collectResults rs).2 = (rs.filter (fun r => !r.found)).map (fun r => r.song) := by
  induction rs with
  | nil => rfl
  | cons r rest ih =>
    simp only [collectResults, List.filter_cons]
    by_cases h : r.found
    · simp [h, ih]
    · simp [h, ih]

theorem map_getD_range (l : List String) :
    (List.range l.length).map (fun i => l.getD i "") = l := by
  induction l with
  | nil => rfl
  | cons x xs ih =>
    rw [List.length_cons, List.range_succ_eq_map, List.map_cons, List.map_map]
    have hcomp : ((fun i => (x :: xs).getD i "") ∘ Nat.succ) = fun i => xs.getD i "" := by
      funext i
      simp [List.getD_cons_succ]
    rw [hcomp, ih]
    rfl

theorem resolveAll_song_perm (songs : List String)
    (resolve : String → FindResult) (order : List Nat)
    (hperm : order.Perm (List.range songs.length))
    (hsong : ∀ s, (resolve s).song = s) :
    ((resolveAllResults songs resolve order).map (fun r => r.song)).Perm songs := by
  unfold resolveAllResults
  rw [List.map_map]
  have hcomp : ((fun r => FindResult.song r) ∘ fun i => resolve (songs.getD i ""))
      = fun i => songs.getD i "" := by
    funext i
    exact hsong (songs.getD i "")
  rw [hcomp]
  have h1 := hperm.map (fun i => songs.getD i "")
  rw [map_getD_range] at h1
  exact h1

/-! ### C1: resolution results partition the input -/

/-- C1: given any completion order (a permutation of the submitted future
indices), the Resolution Coordinator produces exactly one terminal result
per input line; the found list is exactly the serialization of the found
results, and the names of the found results together with the not-found
list form a permutation of the input — every line lands in exactly one of
the two output collections, duplicates preserved. -/
theorem C1_partition (songs : List String) (oracle : String → Nat → ProviderResponse)
    (order : List Nat) (hperm : order.Perm (List.range songs.length)) :
    (resolveAllResults songs (fun s => (find_url s (oracle s)).1) order).length
      = songs.length ∧
    (collectResults (resolveAllResults songs (fun s => (find_url s (oracle s)).1) order)).1
      = ((resolveAllResults songs (fun s => (find_url s (oracle s)).1) order).filter
          (fun r => r.found)).map serializeFound ∧
    List.Perm
      ((((resolveAllResults songs (fun s => (find_url s (oracle s)).1) order).filter
          (fun r => r.found)).map (fun r => r.song))
        ++ (collectResults (resolveAllResults songs
              (fun s => (find_url s (oracle s)).1) order)).2)
      songs := by
  refine ⟨?_, collectResults_fst _, ?_⟩
  · unfold resolveAllResults
    rw [List.length_map, hperm.length_eq, List.length_range]
  · rw [collectResults_snd]
    have hsp : ((resolveAllResults songs (fun s => (find_url s (oracle s)).1) order).map
        (fun r => r.song)).Perm songs :=
      resolveAll_song_perm songs _ order hperm (fun s => find_url_song s (oracle s))
    have hfil := (List.filter_append_perm (fun r => r.found)
      (resolveAllResults songs (fun s => (find_url s (oracle s)).1) order)).map
      (fun r => r.song)
    rw [List.map_append] at hfil
    exact hfil.trans hsp

/-- C1 witness: a two-line playlist resolved in reversed completion
order — "a" resolves, "b" does not; together they partition the input. -/
theorem C1_witness :
    ([1, 0] : List Nat).Perm (List.range (["a", "b"] : List String).length) ∧
    ((resolveAllResults ["a", "b"] (fun s => (find_url s (c1resolve s)).1) [1, 0]).length
      = (["a", "b"] : List String).length ∧
    (collectResults (resolveAllResults ["a", "b"]
        (fun s => (find_url s (c1resolve s)).1) [1, 0])).1
      = ((resolveAllResults ["a", "b"] (fun s => (find_url s (c1resolve s)).1) [1, 0]).filter
          (fun r => r.found)).map serializeFound ∧
    List.Perm
      ((((resolveAllResults ["a", "b"] (fun s => (find_url s (c1resolve s)).1) [1, 0]).filter
          (fun r => r.found)).map (fun r => r.song))
        ++ (collectResults (resolveAllResults ["a", "b"]
              (fun s => (find_url s (c1resolve s)).1) [1, 0])).2)
      ["a", "b"]) :=
  ⟨by decide, C1_partition ["a", "b"] c1resolve [1, 0] (by decide)⟩

end Spotify
